import Mathlib

/-!
Verification development for the Polymarket insider-trading detection
repository.  The Python core (insider_detection_engine.py,
wallet_analyzer.py, market_creation_analyzer.py, and the scoring block of
insider_trading_dashboard_v2.py) is shallowly embedded below: Python
floats become exact rationals (`ℚ`), SQL query result sets become explicit
input lists (the historical store is an external collaborator), nullable
columns become `Option ℚ`, and fallible code returns `Except`.  Each
claim-level theorem cites the Python function it is about.
-/

/-- Helper: arithmetic mean of a list of rationals, `np.mean`.  Division by
zero yields `0` in `ℚ`; every use in the embedded code is guarded by a
non-emptiness check exactly as in the source. -/
def meanQ (l : List ℚ) : ℚ := l.sum / (l.length : ℚ)

/-- Helper: `max(l)` for the guarded-nonempty Python `max` calls; the `0`
default is only reached on `[]`, mirroring the `if l else 0` guards that
surround every `max(...)` in the source. -/
def pythonMax (l : List ℚ) : ℚ := (l.max?).getD 0

/-- Helper: Python truthiness of a nullable float column (`None` and `0.0`
are falsy). -/
def truthy : Option ℚ → Bool
  | none => false
  | some q => q != 0

/-- Helper: substring test on character lists (Python `needle in hay`). -/
def isSubstr : List Char → List Char → Bool
  | needle, [] => needle.isEmpty
  | needle, c :: rest => needle.isPrefixOf (c :: rest) || isSubstr needle rest

/-- Helper: Python `needle in hay` on strings. -/
def strContains (hay needle : String) : Bool := isSubstr needle.toList hay.toList

/-- Helper for `pySplit`: scan the characters, accumulating the current
word (reversed); whitespace ends a word, empty fragments are dropped. -/
def splitWordsAux : List Char → List Char → List (List Char)
  | [], acc => if acc.isEmpty then [] else [acc.reverse]
  | c :: rest, acc =>
      if c.isWhitespace then
        (if acc.isEmpty then [] else [acc.reverse]) ++ splitWordsAux rest []
      else splitWordsAux rest (c :: acc)

/-- Helper: Python `str.split()` with no separator: split on whitespace
runs, dropping empty fragments. -/
def pySplit (s : String) : List String := (splitWordsAux s.toList []).map String.mk

/-- Helper: Python `str.lower()`. -/
def pyLower (s : String) : String := String.mk (s.toList.map Char.toLower)

/-- Helper: population variance of a sample list (`np.std` squared;
`np.std` uses the population convention). -/
def popVar (l : List ℚ) : ℚ := meanQ (l.map (fun x => (x - meanQ l) ^ 2))

/-!
## insider_detection_engine.py — class InsiderTradingDetector

The volume z-score `(current − μ)/σ` divides by `σ = √variance`, which is
irrational in general, so the z-score value is carried exactly as either
the literal `0.0` returned by the guard branches or as the pair
(deviation, variance) denoting `max(0, dev)/√var` with `var > 0`.
`ZQ.gtQ` implements the exact real comparison `z > t` used by every
consumer of the z-score (thresholds 2, 3, 4).
-/

/-- Exact representation of a `calculate_volume_zscore` result: `exactZero`
is the literal `0.0` of the guard branches; `ratio dev var` denotes the
real number `max(0, dev)/√var` (invariant: `var > 0` at every
construction site). -/
inductive ZQ where
  | exactZero : ZQ
  | ratio (dev : ℚ) (var : ℚ) : ZQ
deriving DecidableEq, Repr

/-- Real comparison `z > t` on an exactly-represented z-score: for
`t ≥ 0`, `max(0,dev)/√var > t ↔ dev > 0 ∧ dev² > t²·var`. -/
def ZQ.gtQ : ZQ → ℚ → Bool
  | .exactZero, t => decide (t < 0)
  | .ratio dev var, t =>
      if t < 0 then true else decide (0 < dev ∧ t ^ 2 * var < dev ^ 2)

/-- Predicate: the represented z-score value is `0`. -/
def ZQ.isZeroVal : ZQ → Bool
  | .exactZero => true
  | .ratio dev _ => decide (dev ≤ 0)

/-- Embeds `calculate_volume_zscore(current_volume, historical_volumes)`
(insider_detection_engine.py lines 107-119): fewer than 3 samples → `0.0`;
zero standard deviation (equivalently zero variance) → `0.0`; otherwise
`max(0, (current − μ)/σ)`, represented exactly. -/
def calculate_volume_zscore (current_volume : ℚ) (historical_volumes : List ℚ) : ZQ :=
  if historical_volumes.length < 3 then .exactZero
  else if popVar historical_volumes = 0 then .exactZero
  else .ratio (current_volume - meanQ historical_volumes) (popVar historical_volumes)

/-- Rationale of a `detect_volume_anomaly` result.  The spike constructors
stand for the f-strings `"Volume spike {z:.1f}σ above normal (...)"`; the
interpolated numeral is elided from the modelled text since no claim
inspects a spike rationale.  The two constant rationales are modelled
verbatim. -/
inductive VolumeAssessment where
  | insufficientHistoricalData : VolumeAssessment
  | spikeExtreme : VolumeAssessment
  | spikeHigh : VolumeAssessment
  | spikeModerate : VolumeAssessment
  | normalTradingVolume : VolumeAssessment
deriving DecidableEq, Repr

/-- Rationale text of a `detect_volume_anomaly` branch (spike texts elide
the `:.1f` numeral, see `VolumeAssessment`). -/
def VolumeAssessment.text : VolumeAssessment → String
  | .insufficientHistoricalData => "Insufficient historical data"
  | .spikeExtreme => "Volume spike σ above normal (extremely unusual)"
  | .spikeHigh => "Volume spike σ above normal (highly unusual)"
  | .spikeModerate => "Volume spike σ above normal (unusual)"
  | .normalTradingVolume => "Normal trading volume"

/-- Embeds `detect_volume_anomaly(condition_id, current_volume)`
(insider_detection_engine.py lines 121-155).  The SQL query over the last
30 days of `volume_history` is the external historical store; its result
set is the `historical_volumes` parameter. -/
def detect_volume_anomaly (current_volume : ℚ) (historical_volumes : List ℚ) :
    ZQ × VolumeAssessment :=
  if historical_volumes.length < 5 then
    (.exactZero, .insufficientHistoricalData)
  else
    let z := calculate_volume_zscore current_volume historical_volumes
    if z.gtQ 4 then (z, .spikeExtreme)
    else if z.gtQ 3 then (z, .spikeHigh)
    else if z.gtQ 2 then (z, .spikeModerate)
    else (z, .normalTradingVolume)

/-- Rationale of an `analyze_price_volatility` result; the two moving
constructors stand for `"Price move {ratio:.1f}x above normal volatility"`
(numeral elided, unused by every claim), the rest are modelled verbatim. -/
inductive PriceAssessment where
  | insufficientPriceHistory : PriceAssessment
  | noPriceChangesDetected : PriceAssessment
  | priceMoveHigh : PriceAssessment
  | priceMoveModerate : PriceAssessment
  | normalPriceMovement : PriceAssessment
deriving DecidableEq, Repr

/-- Rationale text of an `analyze_price_volatility` branch. -/
def PriceAssessment.text : PriceAssessment → String
  | .insufficientPriceHistory => "Insufficient price history"
  | .noPriceChangesDetected => "No price changes detected"
  | .priceMoveHigh => "Price move x above normal volatility"
  | .priceMoveModerate => "Price move x above normal volatility"
  | .normalPriceMovement => "Normal price movement"

/-- Absolute consecutive differences `[|l[i] − l[i−1]| for i in 1..len)`
computed by the loop in `analyze_price_volatility`. -/
def absDiffs : List ℚ → List ℚ
  | x :: y :: rest => |y - x| :: absDiffs (y :: rest)
  | _ => []

/-- Embeds `analyze_price_volatility(condition_id, current_price)`
(insider_detection_engine.py lines 157-200); `price_history` is the
time-ascending result set of the 24h `price_history` query (external
store). -/
def analyze_price_volatility (current_price : ℚ) (price_history : List ℚ) :
    ℚ × PriceAssessment :=
  if price_history.length < 2 then
    (0, .insufficientPriceHistory)
  else
    let price_changes := absDiffs price_history
    if price_changes.isEmpty then (0, .noPriceChangesDetected)
    else
      let avg_change := meanQ price_changes
      let current_change :=
        if price_history.isEmpty then 0
        else |current_price - (price_history.getLast?).getD 0|
      let volatility_ratio := if 0 < avg_change then current_change / avg_change else 0
      if 3 < volatility_ratio then (volatility_ratio, .priceMoveHigh)
      else if 2 < volatility_ratio then (volatility_ratio, .priceMoveModerate)
      else (volatility_ratio, .normalPriceMovement)

/-- One `wallet_activity` row as consumed by `detect_wallet_anomalies`
(only the address and amount columns are read by the loop; the other
selected columns are unused and omitted). -/
structure WalletActivity where
  wallet_address : String
  trade_amount : ℚ
deriving DecidableEq, Repr

/-- Per-wallet accumulator dict of `detect_wallet_anomalies` (the
`timing_score` key is initialised to 0 and never updated in the source;
kept for fidelity). -/
structure WStats where
  total_volume : ℚ
  trade_count : ℕ
  large_trades : ℕ
  timing_score : ℚ
deriving DecidableEq, Repr

/-- Folds one activity row into the insertion-ordered per-wallet stats
association list (Python dict preserves insertion order). -/
def addActivity : List (String × WStats) → String → ℚ → List (String × WStats)
  | [], addr, amt =>
      [(addr, ⟨amt, 1, if 1000 < amt then 1 else 0, 0⟩)]
  | (a, s) :: rest, addr, amt =>
      if a = addr then
        (a, ⟨s.total_volume + amt, s.trade_count + 1,
             s.large_trades + (if 1000 < amt then 1 else 0), s.timing_score⟩) :: rest
      else (a, s) :: addActivity rest addr amt

/-- The `wallet_stats` dict built by `detect_wallet_anomalies`. -/
def walletStats (activities : List WalletActivity) : List (String × WStats) :=
  activities.foldl (fun m act => addActivity m act.wallet_address act.trade_amount) []

/-- Severity tag of a wallet anomaly. -/
inductive Severity where
  | high : Severity
  | medium : Severity
deriving DecidableEq, Repr

/-- Type tag of a wallet anomaly. -/
inductive WalletAnomalyType where
  | highConcentration : WalletAnomalyType
  | largeTrades : WalletAnomalyType
deriving DecidableEq, Repr

/-- One anomaly record emitted by `detect_wallet_anomalies` (the formatted
`description` string interpolates amounts with `:,.0f` and is not read by
any claim; omitted). -/
structure WalletAnomaly where
  anomalyType : WalletAnomalyType
  wallet : String
  severity : Severity
deriving DecidableEq, Repr

/-- Embeds `detect_wallet_anomalies(condition_id)`
(insider_detection_engine.py lines 202-259); `activities` is the 7-day
`wallet_activity` query result set for the market. -/
def detect_wallet_anomalies (activities : List WalletActivity) : List WalletAnomaly :=
  (walletStats activities).flatMap fun p =>
    (if 10000 < p.2.total_volume ∧ p.2.trade_count ≤ 5 then
       [⟨.highConcentration, p.1, .high⟩] else []) ++
    (if 3 ≤ p.2.large_trades then [⟨.largeTrades, p.1, .medium⟩] else [])

/-- Input of `generate_composite_alert`: the market snapshot fields it
extracts (`conditionId`, `question`, `volume24hr`, first entry of
`outcomePrices`, `liquidity`) together with the three query result sets
its detector calls read from the external store. -/
structure MarketInput where
  condition_id : String
  question : String
  volume24hr : ℚ
  outcomePrice : ℚ
  liquidity : ℚ
  volumeHistory : List ℚ
  priceHistory : List ℚ
  activities : List WalletActivity
deriving DecidableEq, Repr

/-- Output record of `generate_composite_alert` (the `alerts` string list
and the wall-clock `timestamp` are presentation payload unused by every
claim; omitted). -/
structure CompositeAlert where
  condition_id : String
  question : String
  alert_score : ℚ
  volume_zscore : ZQ
  price_volatility : ℚ
  wallet_anomalies : List WalletAnomaly
  current_volume : ℚ
  current_price : ℚ
deriving DecidableEq, Repr

/-- Embeds `generate_composite_alert(market_data)`
(insider_detection_engine.py lines 261-321): volume component 40/25,
price component 25/15, wallet component 25/15 by highest severity
present, low-liquidity/high-volume bonus 10, summed and clamped with
`min(100, score)`. -/
def generate_composite_alert (m : MarketInput) : CompositeAlert :=
  let vz := detect_volume_anomaly m.volume24hr m.volumeHistory
  let pv := analyze_price_volatility m.outcomePrice m.priceHistory
  let wallet_anomalies := detect_wallet_anomalies m.activities
  let volume_component : ℚ :=
    if (vz.1).gtQ 3 then 40 else if (vz.1).gtQ 2 then 25 else 0
  let price_component : ℚ :=
    if 3 < pv.1 then 25 else if 2 < pv.1 then 15 else 0
  let wallet_component : ℚ :=
    if wallet_anomalies.any (fun a => a.severity = .high) then 25
    else if wallet_anomalies.any (fun a => a.severity = .medium) then 15
    else 0
  let liquidity_component : ℚ :=
    if m.liquidity < 1000 ∧ 5000 < m.volume24hr then 10 else 0
  let score := volume_component + price_component + wallet_component + liquidity_component
  { condition_id := m.condition_id
    question := m.question
    alert_score := min 100 score
    volume_zscore := vz.1
    price_volatility := pv.1
    wallet_anomalies := wallet_anomalies
    current_volume := m.volume24hr
    current_price := m.outcomePrice }

/-- Embeds `scan_markets(min_volume)` (insider_detection_engine.py lines
323-343): keep markets with volume at least `min_volume`, alert score
above 30, then sort by alert score descending (Python `list.sort` is
stable, as is `List.mergeSort`). -/
def scan_markets (markets : List MarketInput) (min_volume : ℚ) : List CompositeAlert :=
  let alerts := markets.filterMap fun m =>
    if min_volume ≤ m.volume24hr then
      let alert := generate_composite_alert m
      if 30 < alert.alert_score then some alert else none
    else none
  alerts.mergeSort (fun a b => decide (b.alert_score ≤ a.alert_score))

/-!
## wallet_analyzer.py — class WalletAnalyzer

Timestamps are modelled as rational hours since an arbitrary epoch, so the
source's `(t2 − t1).total_seconds()/3600` becomes plain subtraction.
Nullable SQL columns are `Option ℚ` with Python truthiness (`truthy`)
where the source tests them.
-/

/-- One `trade_outcomes` row as selected by `analyze_wallet_profitability`
(`profit_loss, trade_amount, entry_time, exit_time, hold_duration_hours`). -/
structure TradeOutcome where
  profit_loss : ℚ
  trade_amount : ℚ
  entry_time : ℚ
  exit_time : Option ℚ
  hold_duration_hours : Option ℚ
deriving DecidableEq, Repr

/-- The profit factor `total_profits / total_losses if total_losses > 0
else float('inf') if total_profits > 0 else 0`:  `float('inf')` forces a
dedicated representation. -/
inductive PFVal where
  | fin (q : ℚ) : PFVal
  | posInf : PFVal
deriving DecidableEq, Repr

/-- Real comparison `t < pf` (the source only uses `profit_factor > 3`). -/
def PFVal.gtQ : PFVal → ℚ → Bool
  | .fin q, t => decide (t < q)
  | .posInf, _ => true

/-- The `profits` list of `analyze_wallet_profitability`. -/
def profitsOf (trades : List TradeOutcome) : List ℚ := trades.map (·.profit_loss)

/-- The `amounts` list of `analyze_wallet_profitability`. -/
def amountsOf (trades : List TradeOutcome) : List ℚ := trades.map (·.trade_amount)

/-- The `hold_times` list: `[t[4] for t in trades if t[4]]` (truthiness
drops `NULL` and `0.0`). -/
def holdTimesOf (trades : List TradeOutcome) : List ℚ :=
  trades.filterMap fun t =>
    if truthy t.hold_duration_hours then t.hold_duration_hours else none

/-- `profitable_trades = len([p for p in profits if p > 0])`. -/
def profitableTrades (trades : List TradeOutcome) : ℕ :=
  ((profitsOf trades).filter (fun p => decide (0 < p))).length

/-- `win_rate = profitable_trades / total_trades if total_trades > 0 else 0`. -/
def winRate (trades : List TradeOutcome) : ℚ :=
  if 0 < trades.length then (profitableTrades trades : ℚ) / (trades.length : ℚ) else 0

/-- `avg_profit = np.mean(profits) if profits else 0`. -/
def avgProfit (trades : List TradeOutcome) : ℚ :=
  if (profitsOf trades).isEmpty then 0 else meanQ (profitsOf trades)

/-- `avg_hold_time = np.mean(hold_times) if hold_times else 0`. -/
def avgHoldTime (trades : List TradeOutcome) : ℚ :=
  if (holdTimesOf trades).isEmpty then 0 else meanQ (holdTimesOf trades)

/-- `total_profits = sum([p for p in profits if p > 0])`. -/
def totalProfits (trades : List TradeOutcome) : ℚ :=
  ((profitsOf trades).filter (fun p => decide (0 < p))).sum

/-- `total_losses = abs(sum([p for p in profits if p < 0]))`. -/
def totalLosses (trades : List TradeOutcome) : ℚ :=
  |((profitsOf trades).filter (fun p => decide (p < 0))).sum|

/-- The profit factor of `analyze_wallet_profitability` (wallet_analyzer.py
line 106). -/
def profitFactor (trades : List TradeOutcome) : PFVal :=
  if 0 < totalLosses trades then .fin (totalProfits trades / totalLosses trades)
  else if 0 < totalProfits trades then .posInf
  else .fin 0

/-- `quick_profits = [t for t in trades if t[0] > 0 and t[4] and t[4] < 24]`. -/
def quickProfits (trades : List TradeOutcome) : List TradeOutcome :=
  trades.filter fun t =>
    decide (0 < t.profit_loss) && truthy t.hold_duration_hours &&
      decide ((t.hold_duration_hours).getD 0 < 24)

/-- `quick_profit_ratio = len(quick_profits)/profitable_trades if
profitable_trades > 0 else 0`. -/
def quickProfitRatio (trades : List TradeOutcome) : ℚ :=
  if 0 < profitableTrades trades then
    ((quickProfits trades).length : ℚ) / (profitableTrades trades : ℚ)
  else 0

/-- The additive insider score of `analyze_wallet_profitability`
(wallet_analyzer.py lines 109-131) before the final `min(100, ·)` clamp.
The fourth addend embeds the source's
`if len(quick_profits)/profitable_trades > 0.7 if profitable_trades > 0
else 0:` (the `else 0` is falsy). -/
def insiderScoreRaw (trades : List TradeOutcome) : ℚ :=
  (if (0.8 : ℚ) < winRate trades ∧ 10 ≤ trades.length then 30 else 0) +
  (if (profitFactor trades).gtQ 3 then 25 else 0) +
  (if 1000 < avgProfit trades then 20 else 0) +
  (if 0 < profitableTrades trades ∧
      (0.7 : ℚ) < ((quickProfits trades).length : ℚ) / (profitableTrades trades : ℚ)
   then 15 else 0) +
  (if 10000 < pythonMax (amountsOf trades) then 10 else 0)

/-- Result dict of `analyze_wallet_profitability`.  The empty-history
early return omits the `quick_profit_ratio` key; it is modelled as `0`
there (no claim reads it on empty input). -/
structure ProfitabilityResult where
  total_trades : ℕ
  win_rate : ℚ
  avg_profit : ℚ
  max_profit : ℚ
  avg_hold_time : ℚ
  profit_factor : PFVal
  insider_score : ℚ
  quick_profit_ratio : ℚ
deriving DecidableEq, Repr

/-- Embeds `analyze_wallet_profitability(wallet_address)`
(wallet_analyzer.py lines 63-142); `trades` is the wallet's
`trade_outcomes` query result set. -/
def analyze_wallet_profitability (trades : List TradeOutcome) : ProfitabilityResult :=
  if trades.isEmpty then ⟨0, 0, 0, 0, 0, .fin 0, 0, 0⟩
  else
    { total_trades := trades.length
      win_rate := winRate trades
      avg_profit := avgProfit trades
      max_profit := pythonMax (profitsOf trades)
      avg_hold_time := avgHoldTime trades
      profit_factor := profitFactor trades
      insider_score := min 100 (insiderScoreRaw trades)
      quick_profit_ratio := quickProfitRatio trades }

/-- Type tag of a timing anomaly. -/
inductive TimingAnomalyType where
  | lastMinuteTrading : TimingAnomalyType
  | quickFlip : TimingAnomalyType
deriving DecidableEq, Repr

/-- One anomaly emitted by `detect_timing_anomalies` (the formatted
`description`/`market` strings are unused by every claim; the identifying
fields are kept). -/
structure TimingAnomaly where
  anomalyType : TimingAnomalyType
  severity : Severity
  condition_id : String
deriving DecidableEq, Repr

/-- One row of the `trade_outcomes JOIN markets` query of
`detect_timing_anomalies`; `entry_time` and `market_end` in hours. -/
structure TimingRow where
  condition_id : String
  entry_time : ℚ
  exit_time : Option ℚ
  hold_duration_hours : Option ℚ
  market_end : ℚ
  question : String
deriving DecidableEq, Repr

/-- Anomalies contributed by a single joined row (wallet_analyzer.py
lines 164-191): last-minute trading when
`0 < market_end − entry < 24` hours (severity HIGH below 6 hours), and a
quick flip when the hold duration is truthy and below 2 hours. -/
def timingAnomaliesOfRow (r : TimingRow) : List TimingAnomaly :=
  let time_to_resolution := r.market_end - r.entry_time
  (if time_to_resolution < 24 ∧ 0 < time_to_resolution then
     [⟨.lastMinuteTrading, if time_to_resolution < 6 then .high else .medium,
       r.condition_id⟩]
   else []) ++
  (if truthy r.hold_duration_hours ∧ (r.hold_duration_hours).getD 0 < 2 then
     [⟨.quickFlip, .medium, r.condition_id⟩]
   else [])

/-- Embeds `detect_timing_anomalies(wallet_address)` (wallet_analyzer.py
lines 144-193). -/
def detect_timing_anomalies (rows : List TimingRow) : List TimingAnomaly :=
  rows.flatMap timingAnomaliesOfRow

/-- One row of the `wallet_activity JOIN markets` query of
`analyze_market_impact`. -/
structure ImpactRow where
  trade_amount : ℚ
  condition_id : String
  liquidity : ℚ
  volume24hr : ℚ
deriving DecidableEq, Repr

/-- Market-impact ratio of one trade: `amount / market_liquidity` where
`market_liquidity = liquidity if liquidity > 0 else volume_24h * 0.1`,
and `0` when the denominator is not positive. -/
def impactRatio (r : ImpactRow) : ℚ :=
  let market_liquidity := if 0 < r.liquidity then r.liquidity else r.volume24hr * 0.1
  if 0 < market_liquidity then r.trade_amount / market_liquidity else 0

/-- Result dict of `analyze_market_impact` (the empty-history early
return omits `max_impact_ratio`; modelled as `0` there). -/
structure MarketImpactResult where
  avg_market_impact : ℚ
  large_impact_trades : ℕ
  market_manipulation_score : ℚ
  max_impact_ratio : ℚ
deriving DecidableEq, Repr

/-- Embeds `analyze_market_impact(wallet_address)` (wallet_analyzer.py
lines 195-249).  The third manipulation addend embeds
`if max(impact_ratios) > 0.2 if impact_ratios else 0:`. -/
def analyze_market_impact (rows : List ImpactRow) : MarketImpactResult :=
  if rows.isEmpty then ⟨0, 0, 0, 0⟩
  else
    let impact_ratios := rows.map impactRatio
    let large_impact_trades := (impact_ratios.filter (fun x => decide ((0.1 : ℚ) < x))).length
    let avg_market_impact := meanQ impact_ratios
    let manipulation_score : ℚ :=
      (if (0.05 : ℚ) < avg_market_impact then 30 else 0) +
      (if 3 < large_impact_trades then 25 else 0) +
      (if ¬impact_ratios.isEmpty ∧ (0.2 : ℚ) < pythonMax impact_ratios then 20 else 0)
    { avg_market_impact := avg_market_impact
      large_impact_trades := large_impact_trades
      market_manipulation_score := min 100 manipulation_score
      max_impact_ratio := pythonMax impact_ratios }

/-- Input of `generate_wallet_report`: the wallet address and the result
sets of the three queries its sub-analyses run against the external
store. -/
structure WalletInput where
  wallet_address : String
  outcomes : List TradeOutcome
  timingRows : List TimingRow
  impactRows : List ImpactRow
deriving DecidableEq, Repr

/-- Output record of `generate_wallet_report` (the wall-clock
`analysis_timestamp` is omitted). -/
structure WalletReport where
  wallet_address : String
  risk_score : ℚ
  risk_level : String
  recommendation : String
  profitability_analysis : ProfitabilityResult
  timing_anomalies : List TimingAnomaly
  market_impact_analysis : MarketImpactResult
  total_anomalies : ℕ
deriving DecidableEq, Repr

/-- Embeds `generate_wallet_report(wallet_address)` (wallet_analyzer.py
lines 251-288): `risk_score = insider_score*0.4 +
market_manipulation_score*0.3 + (len(timing_anomalies)*10)*0.3`, the
tier thresholds 70/50/30, and the final `min(100, risk_score)`. -/
def generate_wallet_report (w : WalletInput) : WalletReport :=
  let profitability := analyze_wallet_profitability w.outcomes
  let timing_anomalies := detect_timing_anomalies w.timingRows
  let market_impact := analyze_market_impact w.impactRows
  let risk_score :=
    profitability.insider_score * 0.4 +
    market_impact.market_manipulation_score * 0.3 +
    ((timing_anomalies.length : ℚ) * 10) * 0.3
  let tier : String × String :=
    if 70 ≤ risk_score then ("HIGH", "IMMEDIATE INVESTIGATION REQUIRED")
    else if 50 ≤ risk_score then ("MEDIUM", "CLOSE MONITORING ADVISED")
    else if 30 ≤ risk_score then ("LOW", "ROUTINE MONITORING")
    else ("NORMAL", "NO CONCERN")
  { wallet_address := w.wallet_address
    risk_score := min 100 risk_score
    risk_level := tier.1
    recommendation := tier.2
    profitability_analysis := profitability
    timing_anomalies := timing_anomalies
    market_impact_analysis := market_impact
    total_anomalies := timing_anomalies.length }

/-- Embeds `flag_suspicious_wallets(min_trades)` (wallet_analyzer.py lines
290-316): wallets with at least `min_trades` outcome rows are scored;
reports with risk score at least 30 survive and are sorted by risk score
descending. -/
def flag_suspicious_wallets (wallets : List WalletInput) (min_trades : ℕ) :
    List WalletReport :=
  (((wallets.filter fun w => decide (min_trades ≤ w.outcomes.length)).map
      generate_wallet_report).filter fun r => decide (30 ≤ r.risk_score)).mergeSort
    (fun a b => decide (b.risk_score ≤ a.risk_score))

/-!
## market_creation_analyzer.py — class MarketCreationAnalyzer

The module's import list (lines 1-6) binds `requests`, `json`, `sqlite3`,
`datetime`, `timedelta`, the typing names and `re` — it never binds `np`,
yet `analyze_creator_behavior` (lines 158-160) evaluates `np.mean(...)`
on every non-empty creation history.  Fallible code returns `Except`.
-/

/-- A raised Python exception, as far as the embedded code can raise one. -/
inductive PyError where
  | nameError (name : String) : PyError
deriving DecidableEq, Repr

/-- Names bound at module level by the import statements of
market_creation_analyzer.py (lines 1-6). -/
def marketCreationAnalyzerImports : List String :=
  ["requests", "json", "sqlite3", "datetime", "timedelta", "Dict", "List",
   "Optional", "re"]

/-- Whether the name `np` is bound in market_creation_analyzer.py: it is
not (`import numpy as np` is missing from that module). -/
def npDefined : Bool := marketCreationAnalyzerImports.contains "np"

/-- Result dict of `analyze_question_framing`, score fields only (the
regex-derived `has_specific_dates` / `has_specific_numbers` booleans are
never scored and are read by no claim; omitted). -/
structure FramingResult where
  urgency_score : ℚ
  specificity_score : ℚ
  length_score : ℚ
  total_framing_score : ℚ
deriving DecidableEq, Repr

/-- The urgency word list of `analyze_question_framing` (line 66). -/
def urgencyWords : List String :=
  ["urgent", "immediate", "soon", "within", "before", "by", "asap", "quickly"]

/-- The specificity indicator list of `analyze_question_framing`
(lines 71-74). -/
def specificityWords : List String :=
  ["exactly", "precisely", "specifically", "particular", "certain",
   "definite", "guaranteed", "will", "shall"]

/-- `sum(1 for word in words if word in text)`. -/
def countPresent (text : String) (words : List String) : ℕ :=
  (words.filter fun w => strContains text w).length

/-- Embeds `analyze_question_framing(question)`
(market_creation_analyzer.py lines 57-89): urgency `min(count*10, 50)`,
specificity `min(count*15, 45)`, and the length bonus
`min(word_count*2, 30) if word_count > 20 else 0`. -/
def analyze_question_framing (question : String) : FramingResult :=
  let question_lower := pyLower question
  let urgency_score : ℚ := min ((countPresent question_lower urgencyWords : ℚ) * 10) 50
  let specificity_score : ℚ :=
    min ((countPresent question_lower specificityWords : ℚ) * 15) 45
  let question_length := (pySplit question).length
  let length_score : ℚ :=
    if 20 < question_length then min ((question_length : ℚ) * 2) 30 else 0
  { urgency_score := urgency_score
    specificity_score := specificity_score
    length_score := length_score
    total_framing_score := urgency_score + specificity_score + length_score }

/-- A Python `datetime` as the embedded code reads it: the absolute time
in seconds since an arbitrary epoch plus its calendar decomposition
(`weekday()` with Monday = 0, and `hour`); the Gregorian decomposition of
the absolute time is orthogonal to every claim and is carried as data. -/
structure PyDateTime where
  secondsSinceEpoch : ℚ
  weekday : ℕ
  hour : ℕ
deriving DecidableEq, Repr

/-- Result dict of `analyze_creation_timing`. -/
structure TimingAnalysis where
  time_to_resolution_days : ℚ
  creation_hour : ℕ
  creation_weekday : ℕ
  timing_score : ℚ
  timing_reasons : List String
deriving DecidableEq, Repr

/-- Embeds `analyze_creation_timing(creation_time, end_date)`
(market_creation_analyzer.py lines 91-130): +30 within 7 days of
resolution (else +15 within 30), +20 for an hour outside `[6,22]`, +10 on
a weekend, capped with `min(timing_score, 50)`. -/
def analyze_creation_timing (creation_time end_date : PyDateTime) : TimingAnalysis :=
  let time_to_resolution :=
    (end_date.secondsSinceEpoch - creation_time.secondsSinceEpoch) / 86400
  let weekday := creation_time.weekday
  let hour := creation_time.hour
  let resolutionPart : ℚ × List String :=
    if time_to_resolution < 7 then (30, ["Created very close to resolution date"])
    else if time_to_resolution < 30 then (15, ["Created relatively close to resolution"])
    else (0, [])
  let hourPart : ℚ × List String :=
    if hour < 6 ∨ 22 < hour then
      (20, ["Created at unusual hour: " ++ toString hour ++ ":00"])
    else (0, [])
  let weekendPart : ℚ × List String :=
    if 5 ≤ weekday then (10, ["Created on weekend"]) else (0, [])
  { time_to_resolution_days := time_to_resolution
    creation_hour := hour
    creation_weekday := weekday
    timing_score := min (resolutionPart.1 + hourPart.1 + weekendPart.1) 50
    timing_reasons := resolutionPart.2 ++ hourPart.2 ++ weekendPart.2 }

/-- One row of the creator-history query of `analyze_creator_behavior`
(`creation_timestamp, initial_liquidity, urgency_score,
insider_creation_score` from `market_creation_log`); the three numeric
columns are nullable and truthiness-filtered by the source. -/
structure CreationLogRow where
  creation_timestamp : ℚ
  initial_liquidity : Option ℚ
  urgency_score : Option ℚ
  insider_creation_score : Option ℚ
deriving DecidableEq, Repr

/-- Result dict of `analyze_creator_behavior`. -/
structure CreatorResult where
  total_markets : ℕ
  avg_liquidity : ℚ
  urgency_tendency : ℚ
  insider_tendency : ℚ
  creator_score : ℚ
deriving DecidableEq, Repr

/-- Truthiness-filtered column values: `[c[i] for c in creations if c[i]]`. -/
def truthyVals (f : CreationLogRow → Option ℚ) (creations : List CreationLogRow) :
    List ℚ :=
  creations.filterMap fun c => if truthy (f c) then f c else none

/-- The arithmetic of `analyze_creator_behavior` on a non-empty history
(market_creation_analyzer.py lines 157-189), as written — reachable only
if `np` were bound, which it is not (`npDefined = false`), so this value
is dead code in the running program; `np.mean` of an empty
truthiness-filtered column (NaN in numpy) is modelled as `0`. -/
def creatorBehaviorValue (creations : List CreationLogRow) : CreatorResult :=
  let total_markets := creations.length
  let avg_liquidity :=
    if creations.isEmpty then 0 else meanQ (truthyVals (·.initial_liquidity) creations)
  let urgency_tendency :=
    if creations.isEmpty then 0 else meanQ (truthyVals (·.urgency_score) creations)
  let insider_tendency :=
    if creations.isEmpty then 0
    else meanQ (truthyVals (·.insider_creation_score) creations)
  let creator_score : ℚ :=
    (if 30 < urgency_tendency then 25 else 0) +
    (if 40 < insider_tendency then 35 else 0) +
    (if 50 < total_markets then 20 else if 20 < total_markets then 10 else 0) +
    (if avg_liquidity < 1000 then 15 else 0)
  { total_markets := total_markets
    avg_liquidity := avg_liquidity
    urgency_tendency := urgency_tendency
    insider_tendency := insider_tendency
    creator_score := min creator_score 100 }

/-- Embeds `analyze_creator_behavior(creator_address)`
(market_creation_analyzer.py lines 132-189): an empty history returns the
all-zero dict; a non-empty history evaluates `np.mean(...)` (line 158),
which raises `NameError: name 'np' is not defined` because the module
never imports numpy. -/
def analyze_creator_behavior (creations : List CreationLogRow) :
    Except PyError CreatorResult :=
  if creations.isEmpty then .ok ⟨0, 0, 0, 0, 0⟩
  else if npDefined then .ok (creatorBehaviorValue creations)
  else .error (.nameError "np")

/-- Input of `detect_market_creation_anomaly`: the extracted market
fields, the `datetime.now()` the source substitutes for the creation time
(line 198), the parsed end date (ISO parsing with the +30-days fallback is
caller-side string handling), and the creator-history query result set. -/
structure CreationInput where
  condition_id : String
  question : String
  creator : String
  liquidity : ℚ
  creation_time : PyDateTime
  end_date : PyDateTime
  creatorHistory : List CreationLogRow
deriving DecidableEq, Repr

/-- Output record of `detect_market_creation_anomaly` (wall-clock
`analysis_timestamp` omitted). -/
structure CreationReport where
  condition_id : String
  question : String
  creator_address : String
  insider_creation_score : ℚ
  anomaly_level : String
  recommendation : String
  framing_analysis : FramingResult
  timing_analysis : TimingAnalysis
  creator_analysis : CreatorResult
  liquidity_score : ℚ
  initial_liquidity : ℚ
deriving DecidableEq, Repr

/-- Embeds `detect_market_creation_anomaly(market_data)`
(market_creation_analyzer.py lines 191-257): composite
`framing*0.3 + timing*0.25 + creator*0.25 + liquidity*0.2`, tiers
70/50/30, clamp `min(100, score)`.  The `analyze_creator_behavior` call
raises for a non-empty creator history (see there); the exception
propagates. -/
def detect_market_creation_anomaly (m : CreationInput) :
    Except PyError CreationReport :=
  let framing_analysis := analyze_question_framing m.question
  let timing_analysis := analyze_creation_timing m.creation_time m.end_date
  match analyze_creator_behavior m.creatorHistory with
  | .error e => .error e
  | .ok creator_analysis =>
    let liquidity_score : ℚ :=
      if m.liquidity < 500 then 20 else if m.liquidity < 1000 then 10 else 0
    let insider_creation_score :=
      framing_analysis.total_framing_score * 0.3 +
      timing_analysis.timing_score * 0.25 +
      creator_analysis.creator_score * 0.25 +
      liquidity_score * 0.2
    let tier : String × String :=
      if 70 ≤ insider_creation_score then ("EXTREME", "IMMEDIATE INVESTIGATION")
      else if 50 ≤ insider_creation_score then ("HIGH", "PRIORITY MONITORING")
      else if 30 ≤ insider_creation_score then ("MODERATE", "ROUTINE MONITORING")
      else ("LOW", "NO CONCERN")
    .ok { condition_id := m.condition_id
          question := m.question
          creator_address := m.creator
          insider_creation_score := min 100 insider_creation_score
          anomaly_level := tier.1
          recommendation := tier.2
          framing_analysis := framing_analysis
          timing_analysis := timing_analysis
          creator_analysis := creator_analysis
          liquidity_score := liquidity_score
          initial_liquidity := m.liquidity }

/-!
## insider_trading_dashboard_v2.py — the market-scan scoring block

The "Scan Database Markets" handler (lines 147-222, referred to as
`run_detection_scan`) scores each database market and then executes
`total_score += np.random.randint(-5, 10)` followed by
`total_score = max(0, min(95, total_score))` (lines 204-206).  The random
draw is modelled as an explicit integer parameter `r` with
`-5 ≤ r < 10` (the support of `randint(-5, 10)`). -/

/-- One database market row as read by the dashboard scan. -/
structure DashMarket where
  condition_id : String
  question : String
  category : String
  volume_24h : ℚ
  outcome_price : ℚ
  liquidity : ℚ
deriving DecidableEq, Repr

/-- Volume component of the dashboard scan score (lines 160-171). -/
def dashVolumeScore (volume_24h : ℚ) : ℤ :=
  if 100000 < volume_24h then 35
  else if 50000 < volume_24h then 25
  else if 20000 < volume_24h then 15
  else 5

/-- Price component of the dashboard scan score (lines 173-181). -/
def dashPriceScore (current_price : ℚ) : ℤ :=
  if (0.9 : ℚ) < current_price ∨ current_price < (0.1 : ℚ) then 20
  else if (0.8 : ℚ) < current_price ∨ current_price < (0.2 : ℚ) then 15
  else 5

/-- Liquidity component of the dashboard scan score (lines 183-191). -/
def dashLiquidityScore (liquidity volume_24h : ℚ) : ℤ :=
  if liquidity < 1000 ∧ 10000 < volume_24h then 20
  else if liquidity < 5000 then 10
  else 5

/-- Category risk component of the dashboard scan score (lines 193-199). -/
def dashCategoryRisk (category : String) : ℤ :=
  if ["politics", "election", "crypto"].any (fun c => strContains (pyLower category) c)
  then 8 else 3

/-- The dashboard scan's alert score for one market (lines 160-206),
including the random perturbation `r` drawn by
`np.random.randint(-5, 10)` and the final `max(0, min(95, ·))` clamp. -/
def dashboard_scan_score (m : DashMarket) (r : ℤ) : ℤ :=
  max 0 (min 95 (dashVolumeScore m.volume_24h + dashPriceScore m.outcome_price +
    dashLiquidityScore m.liquidity m.volume_24h + dashCategoryRisk m.category + r))

/-!
## Spec-side definitions

Two formulas transcribed from the spec's words (not from the source), for
refinement comparison against the embedded code.
-/

/-- Modelled from the spec (§4.3): composite wallet risk
`0.4×profitability_insider_score + 0.3×manipulation_score +
0.3×min(100, 10×timing_anomaly_count)`, clamped to 100. -/
def spec_wallet_risk_score (w : WalletInput) : ℚ :=
  min 100
    ((0.4 : ℚ) * (analyze_wallet_profitability w.outcomes).insider_score +
     (0.3 : ℚ) * (analyze_market_impact w.impactRows).market_manipulation_score +
     (0.3 : ℚ) * min 100 (10 * ((detect_timing_anomalies w.timingRows).length : ℚ)))

/-- Modelled from the spec (§4.4): length bonus of 0 at up to 20 words,
else 2 points per word beyond the 20-word threshold, capped at 30. -/
def spec_length_bonus (word_count : ℕ) : ℚ :=
  if word_count ≤ 20 then 0 else min 30 (2 * ((word_count : ℚ) - 20))

/-!
## Claim-level theorems
-/

/-- Helper: a list of length at least 2 has a non-empty difference list. -/
lemma absDiffs_ne_nil : ∀ {l : List ℚ}, 2 ≤ l.length → (absDiffs l).isEmpty = false
  | _ :: _ :: _, _ => rfl

/-- Helper: a list of length at least 2 is non-empty. -/
lemma isEmpty_false_of_two_le : ∀ {l : List ℚ}, 2 ≤ l.length → l.isEmpty = false
  | _ :: _, _ => rfl

/-- C6: for every historical volume sequence with fewer than 5 samples and
every current volume, `detect_volume_anomaly` returns score 0 and the
insufficient-data rationale "Insufficient historical data", independent of
the current volume. -/
theorem C6_insufficient_volume_history (current_volume : ℚ)
    (historical_volumes : List ℚ) (h : historical_volumes.length < 5) :
    detect_volume_anomaly current_volume historical_volumes =
      (.exactZero, .insufficientHistoricalData) ∧
    VolumeAssessment.text .insufficientHistoricalData =
      "Insufficient historical data" := by
  constructor
  · unfold detect_volume_anomaly
    rw [if_pos h]
  · rfl

/-- Witness for C6 at current volume 999 and a 2-sample history. -/
theorem C6_insufficient_volume_history_witness :
    ([100, 200] : List ℚ).length < 5 ∧
    detect_volume_anomaly 999 [100, 200] = (.exactZero, .insufficientHistoricalData) :=
  ⟨by norm_num, (C6_insufficient_volume_history 999 [100, 200] (by norm_num)).1⟩

/-- C4 counterexample: on history `[100,100,100,100,100]` and current
volume 500 the detector returns score 0 but the rationale
"Normal trading volume", not "no variance" (no such rationale exists in
`detect_volume_anomaly`). -/
theorem C4_zero_variance_counterexample :
    detect_volume_anomaly 500 [100, 100, 100, 100, 100] =
      (.exactZero, .normalTradingVolume) ∧
    VolumeAssessment.text .normalTradingVolume = "Normal trading volume" ∧
    VolumeAssessment.text .normalTradingVolume ≠ "no variance" := by
  refine ⟨?_, rfl, by decide⟩
  norm_num [detect_volume_anomaly, calculate_volume_zscore, popVar, meanQ, ZQ.gtQ]

/-- C4 amended: for a history of at least 5 samples with zero (population)
variance — equivalently zero standard deviation — and any current volume,
`detect_volume_anomaly` returns score 0.0 with the NORMAL-tier rationale
"Normal trading volume" (not a dedicated "no variance" rationale). -/
theorem C4_zero_variance_amended (current_volume : ℚ)
    (historical_volumes : List ℚ) (h5 : 5 ≤ historical_volumes.length)
    (hv : popVar historical_volumes = 0) :
    detect_volume_anomaly current_volume historical_volumes =
      (.exactZero, .normalTradingVolume) := by
  have hz : calculate_volume_zscore current_volume historical_volumes = .exactZero := by
    unfold calculate_volume_zscore
    rw [if_neg (by omega), if_pos hv]
  unfold detect_volume_anomaly
  rw [if_neg (by omega)]
  simp only [hz, ZQ.gtQ]
  norm_num

/-- Witness for C4 amended at the spec's own example input. -/
theorem C4_zero_variance_amended_witness :
    5 ≤ ([100, 100, 100, 100, 100] : List ℚ).length ∧
    popVar [100, 100, 100, 100, 100] = 0 ∧
    detect_volume_anomaly 500 [100, 100, 100, 100, 100] =
      (.exactZero, .normalTradingVolume) :=
  ⟨by norm_num, by norm_num [popVar, meanQ],
   C4_zero_variance_amended 500 [100, 100, 100, 100, 100] (by norm_num)
     (by norm_num [popVar, meanQ])⟩

/-- A 21-word question used as concrete input for C5. -/
def questionCx : String := "w w w w w w w w w w w w w w w w w w w w w"

/-- C5 counterexample: a 21-word question gets length bonus 30 from
`analyze_question_framing` (the code computes `min(2×total_words, 30)`),
while the claim's formula — 2 points per word beyond the 20-word
threshold — gives 2. -/
theorem C5_length_bonus_counterexample :
    (pySplit questionCx).length = 21 ∧
    (analyze_question_framing questionCx).length_score = 30 ∧
    spec_length_bonus 21 = 2 ∧
    (analyze_question_framing questionCx).length_score ≠ spec_length_bonus 21 := by
  have hlen : (pySplit questionCx).length = 21 := by decide
  have hscore : (analyze_question_framing questionCx).length_score = 30 := by
    unfold analyze_question_framing
    dsimp only
    rw [hlen, if_pos (by norm_num)]
    norm_num [min_def]
  have hspec : spec_length_bonus 21 = 2 := by norm_num [spec_length_bonus, min_def]
  exact ⟨hlen, hscore, hspec, by rw [hscore, hspec]; norm_num⟩

/-- C5 amended: the length bonus of `analyze_question_framing` is 0 for
questions of at most 20 words, and `min(2×total_word_count, 30)` — which
always equals the 30-point cap — for questions of more than 20 words. -/
theorem C5_length_bonus_amended (question : String) :
    ((pySplit question).length ≤ 20 →
      (analyze_question_framing question).length_score = 0) ∧
    (20 < (pySplit question).length →
      (analyze_question_framing question).length_score = 30) := by
  constructor <;> intro h
  · unfold analyze_question_framing
    dsimp only
    rw [if_neg (by omega)]
  · unfold analyze_question_framing
    dsimp only
    rw [if_pos h]
    have h21 : (21 : ℚ) ≤ ((pySplit question).length : ℚ) := by
      exact_mod_cast h
    rw [min_eq_right (by linarith)]

/-- Witness for C5 amended at a 3-word and a 21-word question. -/
theorem C5_length_bonus_amended_witness :
    ((pySplit "does it rain").length ≤ 20 ∧
      (analyze_question_framing "does it rain").length_score = 0) ∧
    (20 < (pySplit questionCx).length ∧
      (analyze_question_framing questionCx).length_score = 30) :=
  ⟨⟨by decide, (C5_length_bonus_amended "does it rain").1 (by decide)⟩,
   ⟨by decide, (C5_length_bonus_amended questionCx).2 (by decide)⟩⟩

/-- Modelled from the spec (§4.2): the claimed volatility ratio,
`|current − last historical| / mean(|consecutive diffs|)` when that mean
is positive, else 0. -/
def spec_volatility_ratio (current_price : ℚ) (price_history : List ℚ) : ℚ :=
  if 0 < meanQ (absDiffs price_history) then
    |current_price - (price_history.getLast?).getD 0| / meanQ (absDiffs price_history)
  else 0

/-- C7: `analyze_price_volatility` returns `(0.0, insufficient history)`
for fewer than 2 samples; otherwise it returns the ratio
`|current − last|/avg_change` (0 on zero average change) classified
HIGH above 3 and MODERATE above 2; on history `[0.50,0.52,0.51]` and
current price 0.80 the ratio is 58/3 ≈ 19.3 and the tier is HIGH. -/
theorem C7_price_volatility_behaviour (current_price : ℚ) (price_history : List ℚ) :
    (price_history.length < 2 →
      analyze_price_volatility current_price price_history =
        (0, .insufficientPriceHistory)) ∧
    (2 ≤ price_history.length →
      analyze_price_volatility current_price price_history =
        (spec_volatility_ratio current_price price_history,
         if 3 < spec_volatility_ratio current_price price_history then .priceMoveHigh
         else if 2 < spec_volatility_ratio current_price price_history then
           .priceMoveModerate
         else .normalPriceMovement)) ∧
    (analyze_price_volatility 0.80 [0.50, 0.52, 0.51] = (58/3, .priceMoveHigh) ∧
     (19.3 : ℚ) < 58/3 ∧ (58 : ℚ)/3 < 19.4) := by
  refine ⟨fun h => ?_, fun h => ?_, ?_, by norm_num, by norm_num⟩
  · unfold analyze_price_volatility
    rw [if_pos h]
  · unfold analyze_price_volatility spec_volatility_ratio
    rw [if_neg (by omega)]
    simp only [isEmpty_false_of_two_le h, absDiffs_ne_nil h, Bool.false_eq_true,
      if_false]
    split_ifs <;> rfl
  · norm_num [analyze_price_volatility, absDiffs, meanQ, List.getLast?,
      abs_of_pos, abs_of_nonneg]

/-- Witness for C7 at a 1-sample history and at the spec's example. -/
theorem C7_price_volatility_behaviour_witness :
    (([0.5] : List ℚ).length < 2 ∧
      analyze_price_volatility 0.7 [0.5] = (0, .insufficientPriceHistory)) ∧
    (2 ≤ ([0.50, 0.52, 0.51] : List ℚ).length ∧
      analyze_price_volatility 0.80 [0.50, 0.52, 0.51] =
        (spec_volatility_ratio 0.80 [0.50, 0.52, 0.51],
         if 3 < spec_volatility_ratio 0.80 [0.50, 0.52, 0.51] then .priceMoveHigh
         else if 2 < spec_volatility_ratio 0.80 [0.50, 0.52, 0.51] then
           .priceMoveModerate
         else .normalPriceMovement)) :=
  ⟨⟨by norm_num, (C7_price_volatility_behaviour 0.7 [0.5]).1 (by norm_num)⟩,
   ⟨by norm_num,
    (C7_price_volatility_behaviour 0.80 [0.50, 0.52, 0.51]).2.1 (by norm_num)⟩⟩

/-- A creation-log row (concrete creator history entry) used for C2. -/
def creationRowCx : CreationLogRow := ⟨0, some 500, some 0, some 0⟩

/-- A concrete `detect_market_creation_anomaly` input whose creator has a
non-empty creation history, used for C2. -/
def creationInputCx : CreationInput :=
  ⟨"c2", "does it rain today", "0xcreator", 2000, ⟨0, 2, 12⟩,
   ⟨86400 * 40, 2, 12⟩, [creationRowCx]⟩

/-- C2: the claim (all detector-level functions are total over
validly-typed input) is what the spec requires, but the code violates it:
market_creation_analyzer.py never imports numpy, so
`analyze_creator_behavior` raises `NameError: name 'np' is not defined`
for every creator with a non-empty creation history, and the exception
propagates out of `detect_market_creation_anomaly`. -/
theorem C2_creator_behavior_raises_nameerror :
    npDefined = false ∧
    analyze_creator_behavior [creationRowCx] = .error (.nameError "np") ∧
    detect_market_creation_anomaly creationInputCx = .error (.nameError "np") :=
  ⟨rfl, rfl, rfl⟩

/-- A concrete database market row for C9: volume 25000, price 0.5,
liquidity 6000, category "Sports". -/
def dashMarketCx : DashMarket := ⟨"c9", "who wins", "Sports", 25000, 0.5, 6000⟩

/-- Helper: deterministic base score of `dashMarketCx` with draw 0. -/
lemma dash_score_cx_zero : dashboard_scan_score dashMarketCx 0 = 28 := by
  have hc : dashCategoryRisk "Sports" = 3 := by decide
  unfold dashboard_scan_score
  show max 0 (min 95 (dashVolumeScore 25000 + dashPriceScore 0.5 +
    dashLiquidityScore 6000 25000 + dashCategoryRisk "Sports" + 0)) = 28
  rw [hc]
  norm_num [dashVolumeScore, dashPriceScore, dashLiquidityScore]

/-- Helper: score of `dashMarketCx` with draw 5. -/
lemma dash_score_cx_five : dashboard_scan_score dashMarketCx 5 = 33 := by
  have hc : dashCategoryRisk "Sports" = 3 := by decide
  unfold dashboard_scan_score
  show max 0 (min 95 (dashVolumeScore 25000 + dashPriceScore 0.5 +
    dashLiquidityScore 6000 25000 + dashCategoryRisk "Sports" + 5)) = 33
  rw [hc]
  norm_num [dashVolumeScore, dashPriceScore, dashLiquidityScore]

/-- C9 counterexample: two invocations of the dashboard v2 market scan on
the identical market input, with the two random draws 0 and 5 — both in
the support of `np.random.randint(-5, 10)` — produce the different alert
scores 28 and 33, so the scan output is not a function of the market
input alone. -/
theorem C9_determinism_counterexample :
    dashboard_scan_score dashMarketCx 0 = 28 ∧
    dashboard_scan_score dashMarketCx 5 = 33 ∧
    dashboard_scan_score dashMarketCx 0 ≠ dashboard_scan_score dashMarketCx 5 ∧
    (-5 : ℤ) ≤ 0 ∧ (0 : ℤ) < 10 ∧ (-5 : ℤ) ≤ 5 ∧ (5 : ℤ) < 10 := by
  refine ⟨dash_score_cx_zero, dash_score_cx_five, ?_, by norm_num, by norm_num,
    by norm_num, by norm_num⟩
  rw [dash_score_cx_zero, dash_score_cx_five]
  norm_num

/-- C9 amended: every embedded scoring function is a deterministic
function of its explicit inputs — for the dashboard v2 scan those inputs
include the random draw of `np.random.randint(-5, 10)` — but the dashboard
scan score is not determined by the market data alone: two in-range draws
can produce different scores for the same market. -/
theorem C9_determinism_amended :
    (∀ (m : DashMarket) (r₁ r₂ : ℤ), r₁ = r₂ →
      dashboard_scan_score m r₁ = dashboard_scan_score m r₂) ∧
    (∀ (m₁ m₂ : MarketInput), m₁ = m₂ →
      generate_composite_alert m₁ = generate_composite_alert m₂) ∧
    (∀ (w₁ w₂ : WalletInput), w₁ = w₂ →
      generate_wallet_report w₁ = generate_wallet_report w₂) ∧
    ∃ (m : DashMarket) (r₁ r₂ : ℤ),
      -5 ≤ r₁ ∧ r₁ < 10 ∧ -5 ≤ r₂ ∧ r₂ < 10 ∧
      dashboard_scan_score m r₁ ≠ dashboard_scan_score m r₂ := by
  refine ⟨fun m r₁ r₂ h => by rw [h], fun m₁ m₂ h => by rw [h],
    fun w₁ w₂ h => by rw [h],
    ⟨dashMarketCx, 0, 5, by norm_num, by norm_num, by norm_num, by norm_num, ?_⟩⟩
  rw [dash_score_cx_zero, dash_score_cx_five]
  norm_num

/-- Witness for C9 amended: the deterministic conjuncts applied at
concrete equal inputs. -/
theorem C9_determinism_amended_witness :
    dashboard_scan_score dashMarketCx 4 = dashboard_scan_score dashMarketCx 4 ∧
    generate_wallet_report ⟨"0x0", [], [], []⟩ =
      generate_wallet_report ⟨"0x0", [], [], []⟩ :=
  ⟨C9_determinism_amended.1 dashMarketCx 4 4 rfl,
   C9_determinism_amended.2.2.1 ⟨"0x0", [], [], []⟩ ⟨"0x0", [], [], []⟩ rfl⟩

/-- Helper: sorting any list with the descending-by-key comparator used in
the embedded batch scans yields a list pairwise non-increasing in the
key. -/
lemma pairwise_mergeSort_desc {α : Type} (key : α → ℚ) (l : List α) :
    List.Pairwise (fun a b => key b ≤ key a)
      (l.mergeSort (fun a b => decide (key b ≤ key a))) := by
  have htrans : ∀ a b c : α, decide (key b ≤ key a) = true →
      decide (key c ≤ key b) = true → decide (key c ≤ key a) = true := by
    intro a b c hab hbc
    simp only [decide_eq_true_eq] at *
    exact le_trans hbc hab
  have htotal : ∀ a b : α,
      (decide (key b ≤ key a) || decide (key a ≤ key b)) = true := by
    intro a b
    simp only [Bool.or_eq_true, decide_eq_true_eq]
    exact le_total (key b) (key a)
  have h := @List.sorted_mergeSort α (fun a b => decide (key b ≤ key a))
    htrans htotal l
  exact h.imp fun hab => of_decide_eq_true hab

/-- C10: `scan_markets` returns the surviving alerts sorted by
`alert_score` descending, and `flag_suspicious_wallets` returns the
suspicious-wallet reports sorted by `risk_score` descending, for every
input. -/
theorem C10_batch_scans_sorted_descending :
    (∀ (markets : List MarketInput) (min_volume : ℚ),
      List.Pairwise (fun a b : CompositeAlert => b.alert_score ≤ a.alert_score)
        (scan_markets markets min_volume)) ∧
    (∀ (wallets : List WalletInput) (min_trades : ℕ),
      List.Pairwise (fun a b : WalletReport => b.risk_score ≤ a.risk_score)
        (flag_suspicious_wallets wallets min_trades)) := by
  constructor
  · intro markets min_volume
    unfold scan_markets
    exact pairwise_mergeSort_desc (fun a : CompositeAlert => a.alert_score) _
  · intro wallets min_trades
    unfold flag_suspicious_wallets
    exact pairwise_mergeSort_desc (fun r : WalletReport => r.risk_score) _

/-- A losing trade outcome (profit −3000, amount 1000, held 5 hours). -/
def outcomeCx : TradeOutcome := ⟨-3000, 1000, 0, some 5, some 5⟩

/-- A joined timing row entering 10 hours before market resolution. -/
def timingRowCx : TimingRow := ⟨"m", 0, some 10, some 5, 10, "q"⟩

/-- A wallet with 11 losing trades, each entered 10 hours before its
market's resolution (hence 11 timing anomalies), and no recorded market
activity — so zero insider and manipulation scores. -/
def walletCx : WalletInput :=
  ⟨"0xc3", List.replicate 11 outcomeCx, List.replicate 11 timingRowCx, []⟩

/-- Helper: the counterexample wallet's profitability insider score is 0. -/
lemma walletCx_insider_score :
    (analyze_wallet_profitability walletCx.outcomes).insider_score = 0 := by
  norm_num [analyze_wallet_profitability, insiderScoreRaw, winRate, profitableTrades,
    profitsOf, avgProfit, meanQ, profitFactor, totalProfits, totalLosses,
    quickProfits, quickProfitRatio, pythonMax, amountsOf, truthy, outcomeCx,
    walletCx, List.replicate, PFVal.gtQ, List.max?]

/-- Helper: the counterexample wallet has exactly 11 timing anomalies. -/
lemma walletCx_timing_count :
    (detect_timing_anomalies walletCx.timingRows).length = 11 := by
  norm_num [detect_timing_anomalies, timingAnomaliesOfRow, truthy, timingRowCx,
    walletCx, List.replicate]

/-- C3 counterexample: for a wallet with 11 timing anomalies and zero
insider/manipulation scores, `generate_wallet_report` yields risk score
`min(100, 0.4·0 + 0.3·0 + (11·10)·0.3) = 33`, while the claim's formula
— with its inner `min(100, 10×count)` clamp — yields 30. -/
theorem C3_wallet_risk_counterexample :
    (generate_wallet_report walletCx).risk_score = 33 ∧
    spec_wallet_risk_score walletCx = 30 ∧
    (generate_wallet_report walletCx).risk_score ≠ spec_wallet_risk_score walletCx := by
  have himp : analyze_market_impact walletCx.impactRows = ⟨0, 0, 0, 0⟩ := rfl
  have h1 : (generate_wallet_report walletCx).risk_score = 33 := by
    show min 100 ((analyze_wallet_profitability walletCx.outcomes).insider_score * 0.4 +
      (analyze_market_impact walletCx.impactRows).market_manipulation_score * 0.3 +
      (((detect_timing_anomalies walletCx.timingRows).length : ℚ) * 10) * 0.3) = 33
    rw [walletCx_insider_score, walletCx_timing_count, himp]
    norm_num [min_def]
  have h2 : spec_wallet_risk_score walletCx = 30 := by
    unfold spec_wallet_risk_score
    rw [walletCx_insider_score, walletCx_timing_count, himp]
    norm_num [min_def]
  exact ⟨h1, h2, by rw [h1, h2]; norm_num⟩

/-- C3 amended: the composite wallet risk score equals
`min(100, insider_score×0.4 + manipulation_score×0.3 +
(10×timing_anomaly_count)×0.3)` — the timing term is weighted unclamped;
only the final sum is clamped at 100. -/
theorem C3_wallet_risk_amended (w : WalletInput) :
    (generate_wallet_report w).risk_score =
      min 100
        ((analyze_wallet_profitability w.outcomes).insider_score * 0.4 +
         (analyze_market_impact w.impactRows).market_manipulation_score * 0.3 +
         (((detect_timing_anomalies w.timingRows).length : ℚ) * 10) * 0.3) := rfl

/-- C8: every wallet trade history with 12 trades, win rate 5/6 (the
spec's rounded 0.83), profit factor exactly 4.0, average profit 1500,
quick-flip ratio at least 3/4 among profitable trades (the spec's 0.75;
with 10 profitable trades the attainable neighbouring value is 8/10),
and largest trade 15000 receives profitability insider sub-score exactly
100 = min(100, 30+25+20+15+10) from `analyze_wallet_profitability`. -/
theorem C8_profitability_example_scores_100 (trades : List TradeOutcome)
    (h1 : trades.length = 12) (h2 : winRate trades = 5/6)
    (h3 : profitFactor trades = .fin 4) (h4 : avgProfit trades = 1500)
    (h5 : (3 : ℚ)/4 ≤ quickProfitRatio trades)
    (h6 : pythonMax (amountsOf trades) = 15000) :
    (analyze_wallet_profitability trades).insider_score = 100 ∧
    (100 : ℚ) = min 100 (30 + 25 + 20 + 15 + 10) := by
  have hne : trades.isEmpty = false := by
    cases trades
    · simp at h1
    · rfl
  have hprof : 0 < profitableTrades trades := by
    by_contra hc
    push_neg at hc
    have h0 : profitableTrades trades = 0 := by omega
    have : quickProfitRatio trades = 0 := by
      unfold quickProfitRatio
      rw [if_neg (by omega)]
    rw [this] at h5
    norm_num at h5
  have hqr : quickProfitRatio trades =
      ((quickProfits trades).length : ℚ) / (profitableTrades trades : ℚ) := by
    unfold quickProfitRatio
    rw [if_pos hprof]
  have hraw : insiderScoreRaw trades = 100 := by
    unfold insiderScoreRaw
    rw [if_pos ⟨by rw [h2]; norm_num, by omega⟩,
        if_pos (by rw [h3]; rfl),
        if_pos (by rw [h4]; norm_num),
        if_pos ⟨hprof, by rw [← hqr]; linarith⟩,
        if_pos (by rw [h6]; norm_num)]
    norm_num
  constructor
  · unfold analyze_wallet_profitability
    simp only [hne, Bool.false_eq_true, if_false]
    rw [hraw]
    norm_num [min_def]
  · norm_num [min_def]

/-- A 12-trade history realising the spec's §8 profitability example:
10 wins of 2400 (8 of them held 5h, 2 held 48h), 2 losses of 3000, one
trade of size 15000 — win rate 10/12, profit factor 24000/6000 = 4,
average profit 18000/12 = 1500, quick-flip ratio 8/10. -/
def tradesC8 : List TradeOutcome :=
  [⟨2400, 15000, 0, some 5, some 5⟩,
   ⟨2400, 1000, 1, some 6, some 5⟩,
   ⟨2400, 1000, 2, some 7, some 5⟩,
   ⟨2400, 1000, 3, some 8, some 5⟩,
   ⟨2400, 1000, 4, some 9, some 5⟩,
   ⟨2400, 1000, 5, some 10, some 5⟩,
   ⟨2400, 1000, 6, some 11, some 5⟩,
   ⟨2400, 1000, 7, some 12, some 5⟩,
   ⟨2400, 1000, 8, some 56, some 48⟩,
   ⟨2400, 1000, 9, some 57, some 48⟩,
   ⟨-3000, 1000, 10, some 15, some 5⟩,
   ⟨-3000, 1000, 11, some 16, some 5⟩]

/-- Witness for C8 at the concrete 12-trade history `tradesC8`. -/
theorem C8_profitability_example_scores_100_witness :
    tradesC8.length = 12 ∧ winRate tradesC8 = 5/6 ∧
    profitFactor tradesC8 = .fin 4 ∧ avgProfit tradesC8 = 1500 ∧
    (3 : ℚ)/4 ≤ quickProfitRatio tradesC8 ∧
    pythonMax (amountsOf tradesC8) = 15000 ∧
    (analyze_wallet_profitability tradesC8).insider_score = 100 := by
  have h1 : tradesC8.length = 12 := rfl
  have h2 : winRate tradesC8 = 5/6 := by
    norm_num [winRate, profitableTrades, profitsOf, tradesC8]
  have h3 : profitFactor tradesC8 = .fin 4 := by
    norm_num [profitFactor, totalProfits, totalLosses, profitsOf, tradesC8]
  have h4 : avgProfit tradesC8 = 1500 := by
    norm_num [avgProfit, profitsOf, meanQ, tradesC8]
  have h5 : (3 : ℚ)/4 ≤ quickProfitRatio tradesC8 := by
    norm_num [quickProfitRatio, quickProfits, profitableTrades, profitsOf,
      truthy, tradesC8]
  have h6 : pythonMax (amountsOf tradesC8) = 15000 := by
    norm_num [pythonMax, amountsOf, tradesC8, List.max?]
  exact ⟨h1, h2, h3, h4, h5, h6,
    (C8_profitability_example_scores_100 tradesC8 h1 h2 h3 h4 h5 h6).1⟩

/-- Helper: the profitability insider score is clamped into `[0,100]`. -/
lemma insider_score_bounds (trades : List TradeOutcome) :
    0 ≤ (analyze_wallet_profitability trades).insider_score ∧
    (analyze_wallet_profitability trades).insider_score ≤ 100 := by
  unfold analyze_wallet_profitability
  split
  · norm_num
  · dsimp only
    refine ⟨le_min (by norm_num) ?_, min_le_left _ _⟩
    unfold insiderScoreRaw
    split_ifs <;> norm_num

/-- Helper: the market-manipulation score is clamped into `[0,100]`. -/
lemma manipulation_score_bounds (rows : List ImpactRow) :
    0 ≤ (analyze_market_impact rows).market_manipulation_score ∧
    (analyze_market_impact rows).market_manipulation_score ≤ 100 := by
  unfold analyze_market_impact
  split
  · norm_num
  · dsimp only
    refine ⟨le_min (by norm_num) ?_, min_le_left _ _⟩
    split_ifs <;> norm_num

/-- Helper: a successfully returned creator score lies in `[0,100]`. -/
lemma creator_score_bounds (creations : List CreationLogRow) (res : CreatorResult)
    (h : analyze_creator_behavior creations = .ok res) :
    0 ≤ res.creator_score ∧ res.creator_score ≤ 100 := by
  unfold analyze_creator_behavior at h
  split at h
  · simp only [Except.ok.injEq] at h
    subst h
    norm_num
  · split at h
    · simp only [Except.ok.injEq] at h
      subst h
      unfold creatorBehaviorValue
      dsimp only
      refine ⟨le_min ?_ (by norm_num), min_le_right _ _⟩
      split_ifs <;> norm_num
    · exact absurd h (by simp)

/-- Helper: the total framing score is non-negative. -/
lemma framing_total_nonneg (q : String) :
    0 ≤ (analyze_question_framing q).total_framing_score := by
  unfold analyze_question_framing
  dsimp only
  have h1 : (0 : ℚ) ≤ min ((countPresent (pyLower q) urgencyWords : ℚ) * 10) 50 :=
    le_min (by positivity) (by norm_num)
  have h2 : (0 : ℚ) ≤ min ((countPresent (pyLower q) specificityWords : ℚ) * 15) 45 :=
    le_min (by positivity) (by norm_num)
  have h3 : (0 : ℚ) ≤
      (if 20 < (pySplit q).length then min ((((pySplit q).length : ℕ) : ℚ) * 2) 30
       else 0) := by
    split
    · exact le_min (by positivity) (by norm_num)
    · exact le_refl 0
  linarith

/-- Helper: the creation-timing score is non-negative. -/
lemma timing_score_nonneg (c e : PyDateTime) :
    0 ≤ (analyze_creation_timing c e).timing_score := by
  unfold analyze_creation_timing
  dsimp only
  refine le_min ?_ (by norm_num)
  split_ifs <;> norm_num

/-- C1: every composite score produced by the core lies within `[0,100]`:
the market alert score of `generate_composite_alert`, the wallet risk
score of `generate_wallet_report`, and — whenever it returns at all — the
insider creation score of `detect_market_creation_anomaly`. -/
theorem C1_composite_scores_within_range :
    (∀ m : MarketInput,
      0 ≤ (generate_composite_alert m).alert_score ∧
      (generate_composite_alert m).alert_score ≤ 100) ∧
    (∀ w : WalletInput,
      0 ≤ (generate_wallet_report w).risk_score ∧
      (generate_wallet_report w).risk_score ≤ 100) ∧
    (∀ (c : CreationInput) (rep : CreationReport),
      detect_market_creation_anomaly c = .ok rep →
      0 ≤ rep.insider_creation_score ∧ rep.insider_creation_score ≤ 100) := by
  refine ⟨fun m => ?_, fun w => ?_, fun c rep h => ?_⟩
  · unfold generate_composite_alert
    dsimp only
    refine ⟨le_min (by norm_num) ?_, min_le_left _ _⟩
    split_ifs <;> norm_num
  · have hi := (insider_score_bounds w.outcomes).1
    have hm := (manipulation_score_bounds w.impactRows).1
    unfold generate_wallet_report
    dsimp only
    refine ⟨le_min (by norm_num) ?_, min_le_left _ _⟩
    have ht : (0 : ℚ) ≤
        (((detect_timing_anomalies w.timingRows).length : ℚ) * 10) * 0.3 := by
      positivity
    have := mul_nonneg hi (by norm_num : (0:ℚ) ≤ 0.4)
    have := mul_nonneg hm (by norm_num : (0:ℚ) ≤ 0.3)
    linarith
  · unfold detect_market_creation_anomaly at h
    cases hcb : analyze_creator_behavior c.creatorHistory with
    | error e =>
      rw [hcb] at h
      simp at h
    | ok cres =>
      rw [hcb] at h
      simp only [Except.ok.injEq] at h
      subst h
      dsimp only
      have hf := framing_total_nonneg c.question
      have ht := timing_score_nonneg c.creation_time c.end_date
      have hc := (creator_score_bounds c.creatorHistory cres hcb).1
      refine ⟨le_min (by norm_num) ?_, min_le_left _ _⟩
      have hl : (0 : ℚ) ≤
          (if c.liquidity < 500 then (20:ℚ)
           else if c.liquidity < 1000 then 10 else 0) := by
        split_ifs <;> norm_num
      have h1 := mul_nonneg hf (by norm_num : (0:ℚ) ≤ 0.3)
      have h2 := mul_nonneg ht (by norm_num : (0:ℚ) ≤ 0.25)
      have h3 := mul_nonneg hc (by norm_num : (0:ℚ) ≤ 0.25)
      have h4 := mul_nonneg hl (by norm_num : (0:ℚ) ≤ 0.2)
      linarith

/-- A concrete market snapshot with histories, for the C1 witness. -/
def marketEx : MarketInput :=
  ⟨"m1", "does it rain today", 6000, 0.5, 500, [10, 12, 11, 13, 12], [0.5, 0.5], []⟩

/-- A concrete wallet with no recorded history, for the C1 witness. -/
def walletEx : WalletInput := ⟨"0x1", [], [], []⟩

/-- A concrete creation-analysis input (empty creator history, so the
creator analysis succeeds), for the C1 witness. -/
def creationEx : CreationInput :=
  ⟨"c1", "does it rain today", "0x2", 2000, ⟨0, 2, 12⟩, ⟨86400 * 40, 2, 12⟩, []⟩

/-- The creation report produced on `creationEx`. -/
def creationRepEx : CreationReport :=
  ⟨"c1", "does it rain today", "0x2", 0, "LOW", "NO CONCERN",
   ⟨0, 0, 0, 0⟩, ⟨40, 12, 2, 0, []⟩, ⟨0, 0, 0, 0, 0⟩, 0, 2000⟩

/-- Helper: framing analysis of the witness question evaluates to zero. -/
lemma framingEx : analyze_question_framing "does it rain today" = ⟨0, 0, 0, 0⟩ := by
  have hc1 : countPresent (pyLower "does it rain today") urgencyWords = 0 := by decide
  have hc2 : countPresent (pyLower "does it rain today") specificityWords = 0 := by
    decide
  have hlen : (pySplit "does it rain today").length = 4 := by decide
  unfold analyze_question_framing
  simp only [hc1, hc2, hlen]
  norm_num [min_def]

/-- Helper: timing analysis of the witness timestamps evaluates to zero
score. -/
lemma timingEx :
    analyze_creation_timing ⟨0, 2, 12⟩ ⟨86400 * 40, 2, 12⟩ = ⟨40, 12, 2, 0, []⟩ := by
  unfold analyze_creation_timing
  norm_num [min_def]

/-- Helper: `detect_market_creation_anomaly` succeeds on `creationEx` with
report `creationRepEx`. -/
lemma creationEx_ok :
    detect_market_creation_anomaly creationEx = .ok creationRepEx := by
  unfold detect_market_creation_anomaly
  rw [show analyze_creator_behavior creationEx.creatorHistory =
        .ok ⟨0, 0, 0, 0, 0⟩ from rfl]
  dsimp only
  rw [show creationEx.question = "does it rain today" from rfl,
      show creationEx.creation_time = ⟨0, 2, 12⟩ from rfl,
      show creationEx.end_date = ⟨86400 * 40, 2, 12⟩ from rfl,
      framingEx, timingEx]
  norm_num [creationEx, creationRepEx, min_def]

/-- Witness for C1 at the three concrete inputs `marketEx`, `walletEx`,
and `creationEx`. -/
theorem C1_composite_scores_within_range_witness :
    (0 ≤ (generate_composite_alert marketEx).alert_score ∧
      (generate_composite_alert marketEx).alert_score ≤ 100) ∧
    (0 ≤ (generate_wallet_report walletEx).risk_score ∧
      (generate_wallet_report walletEx).risk_score ≤ 100) ∧
    (detect_market_creation_anomaly creationEx = .ok creationRepEx ∧
     0 ≤ creationRepEx.insider_creation_score ∧
     creationRepEx.insider_creation_score ≤ 100) :=
  ⟨C1_composite_scores_within_range.1 marketEx,
   C1_composite_scores_within_range.2.1 walletEx,
   creationEx_ok,
   (C1_composite_scores_within_range.2.2 creationEx creationRepEx creationEx_ok).1,
   (C1_composite_scores_within_range.2.2 creationEx creationRepEx creationEx_ok).2⟩
